import Mathlib

/-!
Verification of the ip_lookup repository: a shallow embedding of
`ip_lookup/cache.py` (NetworkCache) and `ip_lookup/lookup.py` (RirSearcher)
into Lean, restricted to the IPv4 address family (the source annotates the
cache index and `in_cache` with `IPv4Network` / `IPv4Address`).

Strings are manipulated through their underlying character lists so that all
definitions reduce inside the kernel.  External collaborators (the whois
registry query and reverse DNS) are passed in as explicit oracles; side
effects (sleeps, file writes) are returned as an explicit event list.
-/

namespace IpLookup

/-! ## Python string helpers

Each helper mirrors the exact behaviour of the Python construct used by the
source: `str.split` with a one-character separator, `str.replace` with a
one-character pattern, and `int()` literal parsing. -/

/-- `s.split(sep)` for a one-character separator: `"".split(".") == [""]`,
separators at the ends produce empty fields. -/
def splitOnChar (sep : Char) : List Char → List (List Char)
  | [] => [[]]
  | c :: rest =>
    let r := splitOnChar sep rest
    if c = sep then [] :: r
    else
      match r with
      | [] => [[c]]
      | h :: t => (c :: h) :: t

/-- String wrapper for `splitOnChar`. -/
def pySplit (s : String) (sep : Char) : List String :=
  (splitOnChar sep s.data).map (fun l => ⟨l⟩)

/-- `str.replace(old, new)` where both arguments are single characters
(the source only replaces `"\n"` by `" "`). -/
def replaceChar (s : String) (oldc newc : Char) : String :=
  ⟨s.data.map (fun c => if c = oldc then newc else c)⟩

/-- `str(x).replace("\n", " ")` as applied to every registry response field. -/
def sanitize (s : String) : String := replaceChar s '\n' ' '

/-- `str.replace(" ", "")`: drop every space character. -/
def dropSpaces (s : String) : String := ⟨s.data.filter (fun c => c ≠ ' ')⟩

/-- Decimal digit test (ASCII). -/
def isDigitCh (c : Char) : Bool := 48 ≤ c.toNat && c.toNat ≤ 57

/-- Numeric value of a digit list (most significant first). -/
def digitsVal (cs : List Char) : Nat :=
  cs.foldl (fun a c => a * 10 + (c.toNat - 48)) 0

/-- Python whitespace stripped by `int()`. -/
def isPyWs (c : Char) : Bool :=
  c = ' ' || c = '\t' || c = '\n' || c = '\r' || c.toNat = 11 || c.toNat = 12

/-- No two consecutive underscores. -/
def noDoubleUnderscore : List Char → Bool
  | '_' :: '_' :: _ => false
  | _ :: rest => noDoubleUnderscore rest
  | [] => true

/-- `int(s)` on a decimal literal: optional surrounding whitespace, optional
sign, digits with single underscores strictly between digits; `none` models
the `ValueError` raised on any other input. -/
def pyInt (s : String) : Option Int :=
  let t := (s.data.dropWhile isPyWs).reverse.dropWhile isPyWs |>.reverse
  let signed : Bool × List Char :=
    match t with
    | '-' :: rest => (true, rest)
    | '+' :: rest => (false, rest)
    | l => (false, l)
  let u := signed.2
  if u ≠ [] ∧ isDigitCh (u.headD '0') ∧ isDigitCh (u.getLastD '0')
      ∧ u.all (fun c => isDigitCh c || c = '_') ∧ noDoubleUnderscore u then
    let v : Int := (digitsVal (u.filter isDigitCh) : Int)
    some (if signed.1 then -v else v)
  else
    none

/-! ## `ipaddress` model (IPv4)

`ip_address` and `ip_network` follow CPython's `ipaddress` module: four
dotted decimal octets, at most three digits each, no leading zeros, value
at most 255; networks take a `/p` suffix that is either a decimal prefix
length `0..32` or a dotted netmask/hostmask, and `ip_network` is strict
(host bits set is a parse error). -/

/-- One dotted octet, per CPython `_parse_octet`. -/
def parseOctet (s : String) : Option Nat :=
  let cs := s.data
  if cs = [] then none
  else if ¬ cs.all isDigitCh then none
  else if 3 < cs.length then none
  else if 1 < cs.length ∧ cs.headD '0' = '0' then none
  else
    let v := digitsVal cs
    if v ≤ 255 then some v else none

/-- `ipaddress.ip_address` on a string, as a 32-bit value; `none` models
`ValueError`. -/
def ip_address (s : String) : Option Nat :=
  match pySplit s '.' with
  | [a, b, c, d] => do
    let a ← parseOctet a
    let b ← parseOctet b
    let c ← parseOctet c
    let d ← parseOctet d
    pure (((a * 256 + b) * 256 + c) * 256 + d)
  | _ => none

/-- An IPv4 network: aligned base address plus prefix length. -/
structure Net where
  addr : Nat
  plen : Nat
deriving DecidableEq, Repr

/-- `address in network` membership test. -/
def inNetwork (ip : Nat) (n : Net) : Bool :=
  ip / 2 ^ (32 - n.plen) == n.addr / 2 ^ (32 - n.plen)

/-- Prefix part of a CIDR string: decimal prefix length, dotted netmask, or
dotted hostmask (CPython `_make_netmask`). -/
def parsePlen (s : String) : Option Nat :=
  let cs := s.data
  if cs ≠ [] ∧ cs.all isDigitCh then
    let v := digitsVal cs
    if v ≤ 32 then some v else none
  else
    match ip_address s with
    | some m =>
      match (List.range 33).find? (fun p => m = 2 ^ 32 - 2 ^ (32 - p)) with
      | some p => some p
      | none => (List.range 33).find? (fun p => 2 ^ 32 - 1 - m = 2 ^ 32 - 2 ^ (32 - p))
    | none => none

/-- `ipaddress.ip_network` with the default `strict=True`; `none` models
`ValueError` (bad address, bad prefix, more than one `/`, host bits set). -/
def ip_network (s : String) : Option Net :=
  match pySplit s '/' with
  | [a] => (ip_address a).map (fun ip => { addr := ip, plen := 32 })
  | [a, p] => do
    let ip ← ip_address a
    let pl ← parsePlen p
    if ip % 2 ^ (32 - pl) = 0 then pure { addr := ip, plen := pl } else none
  | _ => none

/-- CPython's `_private_networks` list for IPv4 (drives `is_private`). -/
def privateNetsV4 : List Net :=
  [ { addr := 0, plen := 8 },
    { addr := 10 * 2 ^ 24, plen := 8 },
    { addr := 127 * 2 ^ 24, plen := 8 },
    { addr := 169 * 2 ^ 24 + 254 * 2 ^ 16, plen := 16 },
    { addr := 172 * 2 ^ 24 + 16 * 2 ^ 16, plen := 12 },
    { addr := 192 * 2 ^ 24, plen := 29 },
    { addr := 192 * 2 ^ 24 + 170, plen := 31 },
    { addr := 192 * 2 ^ 24 + 2 * 2 ^ 8, plen := 24 },
    { addr := 192 * 2 ^ 24 + 168 * 2 ^ 16, plen := 16 },
    { addr := 198 * 2 ^ 24 + 18 * 2 ^ 16, plen := 15 },
    { addr := 198 * 2 ^ 24 + 51 * 2 ^ 16 + 100 * 2 ^ 8, plen := 24 },
    { addr := 203 * 2 ^ 24 + 113 * 2 ^ 8, plen := 24 },
    { addr := 240 * 2 ^ 24, plen := 4 },
    { addr := 2 ^ 32 - 1, plen := 32 } ]

/-- `IPv4Address.is_private`. -/
def is_private (ip : Nat) : Bool := privateNetsV4.any (inNetwork ip)

/-- `IPv4Address.is_loopback` (127.0.0.0/8). -/
def is_loopback (ip : Nat) : Bool := inNetwork ip { addr := 127 * 2 ^ 24, plen := 8 }

/-- `IPv4Address.is_multicast` (224.0.0.0/4). -/
def is_multicast (ip : Nat) : Bool := inNetwork ip { addr := 224 * 2 ^ 24, plen := 4 }

/-- `IPv4Address.is_unspecified` (0.0.0.0). -/
def is_unspecified (ip : Nat) : Bool := ip == 0

/-- `IPv4Address.is_reserved` (240.0.0.0/4). -/
def is_reserved (ip : Nat) : Bool := inNetwork ip { addr := 240 * 2 ^ 24, plen := 4 }

/-! ## Data model (`ip_lookup/cache.py`)

Timestamps are seconds as `Int`; `relativedelta(days=+14)` added to a
`datetime` is modelled as `+ 14 * 86400`.  A cache entry's `created` field is
`Option Int`: `none` models a persisted JSON object lacking the key.  Python
exceptions escaping a modelled function are `Except PyExc`. -/

/-- Python exception classes that the modelled code can raise. -/
inductive PyExc where
  | valueError : String → PyExc
  | keyError : String → PyExc
  | indexError : String → PyExc
  | typeError : String → PyExc
deriving DecidableEq, Repr

/-- One value of the cache mapping: the JSON object stored under a CIDR key,
with fields written by `NetworkCache.set` in source order. -/
structure CacheEntry where
  name : String
  description : String
  country : String
  registry : String
  fqdn : String
  created : Option Int
deriving DecidableEq, Repr

/-- Observable side effects emitted by the workflow, in order: one external
whois query attempt, a `time.sleep(n)`, a `save_cache` write of the mapping,
or a `save_not_found` flush of the unresolved queue to the side log. -/
inductive Effect where
  | query : Effect
  | sleep : Nat → Effect
  | saveCache : List (String × CacheEntry) → Effect
  | flushNotFound : List String → Effect
deriving DecidableEq, Repr

/-- `CACHE_TIMEOUT_DAYS = 14` -/
def CACHE_TIMEOUT_DAYS : Int := 14

/-- Seconds per day, to express `relativedelta(days=n)` on second-resolution
timestamps. -/
def secondsPerDay : Int := 86400

/-- The expiry window `relativedelta(days=+CACHE_TIMEOUT_DAYS)`. -/
def cacheTTL : Int := CACHE_TIMEOUT_DAYS * secondsPerDay

/-- The load-time staleness test: `created` absent, or
`fromisoformat(created) + 14 days <= now`. -/
def isStale (now : Int) (e : CacheEntry) : Bool :=
  match e.created with
  | none => true
  | some c => decide (c + cacheTTL ≤ now)

/-- Python `dict` insertion: overwrite in place if the key is present
(keeping its position), append otherwise. -/
def dictSet {α β : Type} [DecidableEq α] (l : List (α × β)) (k : α) (v : β) :
    List (α × β) :=
  if l.any (fun p => decide (p.1 = k)) then
    l.map (fun p => if p.1 = k then (k, v) else p)
  else
    l ++ [(k, v)]

/-- Python `dict` read access, `none` when the key is absent. -/
def dictGet {α β : Type} [DecidableEq α] (l : List (α × β)) (k : α) : Option β :=
  (l.find? (fun p => decide (p.1 = k))).map (·.2)

/-- The resolution result container (`ResolvedNetwork` in `cache.py`);
every constructor argument defaults to the empty string. -/
structure ResolvedNetwork where
  address : String := ""
  description : String := ""
  name : String := ""
  cidr : String := ""
  country : String := ""
  registry : String := ""
  fqdn : String := ""
deriving DecidableEq, Repr

/-- The cache: unresolved queue, CIDR-keyed mapping (Python dict, insertion
ordered) and the derived containment index `net_to_cidr`. -/
structure NetworkCache where
  not_found : List String := []
  cache : List (String × CacheEntry) := []
  net_to_cidr : List (Net × String) := []
deriving DecidableEq, Repr

/-- The dict comprehension
`{ip_network(CIDR): CIDR for CIDR in self.cache.keys()}`: any key failing
`ip_network` raises `ValueError` out of the comprehension. -/
def buildIndex (acc : List (Net × String)) : List String → Except PyExc (List (Net × String))
  | [] => .ok acc
  | k :: rest =>
    match ip_network k with
    | some n => buildIndex (dictSet acc n k) rest
    | none => .error (.valueError k)

/-- `NetworkCache.__init__`: load the persisted mapping (`none` models a
missing or JSON-corrupt file, both of which leave the cache empty), prune
entries whose `created` is absent or at least 14 days old, then rebuild the
containment index from the surviving keys. -/
def NetworkCache.load (file : Option (List (String × CacheEntry))) (now : Int) :
    Except PyExc NetworkCache :=
  match file with
  | none => .ok {}
  | some m =>
    let pruned := m.filter (fun p => ¬ isStale now p.2)
    match buildIndex [] (pruned.map (·.1)) with
    | .ok idx => .ok { not_found := [], cache := pruned, net_to_cidr := idx }
    | .error e => .error e

/-- `NetworkCache.save_cache`: the JSON value written to disk is the full
cache mapping, independent of entry freshness. -/
def NetworkCache.save_cache (c : NetworkCache) : List (String × CacheEntry) :=
  c.cache

/-- `NetworkCache.save_not_found`: no-op on an empty queue, otherwise append
the queued addresses to the side log and clear the queue. -/
def NetworkCache.save_not_found (c : NetworkCache) : NetworkCache × List Effect :=
  if c.not_found = [] then (c, [])
  else ({ c with not_found := [] }, [.flushNotFound c.not_found])

/-- `NetworkCache.set`: upsert the mapping entry with `created = now`; then
try to parse the key into the containment index, and on `ValueError` only
log — the mapping entry is kept, the index insertion is skipped. -/
def NetworkCache.set (c : NetworkCache) (network name description country
    registry fqdn : String) (now : Int) : NetworkCache :=
  let cache' := dictSet c.cache network
    { name := name, description := description, country := country,
      registry := registry, fqdn := fqdn, created := some now }
  match ip_network network with
  | some n => { c with cache := cache', net_to_cidr := dictSet c.net_to_cidr n network }
  | none => { c with cache := cache' }

/-- `NetworkCache._get` / `NetworkCache.get_network`: assemble a
`ResolvedNetwork` from the mapping entry under `network`, tagged with the
originally queried `address`; a missing key raises `KeyError`. -/
def NetworkCache.get_network (c : NetworkCache) (address network : String) :
    Except PyExc ResolvedNetwork :=
  match dictGet c.cache network with
  | none => .error (.keyError network)
  | some e =>
    .ok { address := address, cidr := network, name := e.name,
          country := e.country, registry := e.registry,
          description := e.description, fqdn := e.fqdn }

/-- `NetworkCache.in_cache`: linear scan of the containment index in
insertion order, returning the CIDR key of the first network containing the
address. The source method only reads state and is therefore embedded as a
pure function. -/
def NetworkCache.in_cache (c : NetworkCache) (address : Nat) : Option String :=
  (c.net_to_cidr.find? (fun p => inNetwork address p.1)).map (·.2)

/-! ## Lookup workflow (`ip_lookup/lookup.py`) -/

/-- `RETRY_COUNT_MAX = 3` -/
def RETRY_COUNT_MAX : Nat := 3

/-- `SLEEP_TIME = 2` -/
def SLEEP_TIME : Nat := 2

/-- `SLEEP_INTERVAL = 10` -/
def SLEEP_INTERVAL : Nat := 10

/-- `CACHE_SAVE_INTERVAL = 100` -/
def CACHE_SAVE_INTERVAL : Nat := 100

/-- `TIMEOUT_SLEEP = 10` -/
def TIMEOUT_SLEEP : Nat := 10

/-- `ReservedNetNames`: block names excluded from caching. -/
def ReservedNetNames : List String := ["IANA-BLK"]

/-- `Descriptions.PRIVATE_IP_DESCR` -/
def PRIVATE_IP_DESCR : String := "Private (RFC 1918 or APIPA) range"

/-- `Descriptions.LOOPBACK_IP_DESCR` -/
def LOOPBACK_IP_DESCR : String := "Loopback range"

/-- `Descriptions.MCAST_IP_DESCR` -/
def MCAST_IP_DESCR : String := "Multicast range"

/-- `Descriptions.RSVD_IP_DESCR` -/
def RSVD_IP_DESCR : String := "Reserved IP range"

/-- `Descriptions.INVALID_IP_DESCR` -/
def INVALID_IP_DESCR : String := "Invalid IP Address"

/-- The exception taxonomy of `whois.lookup_whois()` as caught by the
source: `TimeoutError` retries, the three `ipwhois` errors abort. -/
inductive QueryError where
  | timeoutError
  | httpLookupError
  | whoisLookupError
  | asnParseError
deriving DecidableEq, Repr

/-- One element of the response's `nets` list. -/
structure WhoisNet where
  cidr : String
  name : String
  description : String
  country : String
deriving DecidableEq, Repr

/-- A successful (non-empty) whois response dict with the keys the source
reads; `asn_cidr := none` models the key being absent, which the source
tolerates through `response.get('asn_cidr', None)`. -/
structure WhoisResponse where
  nets : List WhoisNet
  asn_cidr : Option String
  asn_description : String
  asn_country_code : String
  asn_registry : String
deriving DecidableEq, Repr

/-- External collaborators of one `single_lookup` call: the whois oracle
gives the outcome of the i-th query attempt, `rdns` the
`socket.gethostbyaddr` hostname (`none` models `herror`, swallowed into an
empty fqdn). -/
structure LookupEnv where
  oracle : Nat → Except QueryError WhoisResponse
  rdns : Option String

/-- The four results of `single_lookup`:
`(known_net, cached, error, resolved_net)`. -/
structure LookupOutcome where
  known_net : Bool
  cached : Bool
  error : Bool
  resolved_net : Option ResolvedNetwork
deriving DecidableEq, Repr

/-- `RirSearcher._check_known_nets`: split off the host part, parse it, and
classify. Returns `(none, some record)` for an invalid or well-known
address and `(some ip, none)` for a routable one. -/
def _check_known_nets (address : String) : Option Nat × Option ResolvedNetwork :=
  let host_addr := (pySplit address '/').headD ""
  match ip_address host_addr with
  | none => (none, some { address := address, description := INVALID_IP_DESCR })
  | some ip =>
    if is_private ip then
      (none, some { address := address, description := PRIVATE_IP_DESCR })
    else if is_loopback ip then
      (none, some { address := address, description := LOOPBACK_IP_DESCR })
    else if is_multicast ip then
      (none, some { address := address, description := MCAST_IP_DESCR })
    else if is_unspecified ip || is_reserved ip then
      (none, some { address := address, description := RSVD_IP_DESCR })
    else
      (some ip, none)

/-- The `while retry_count < RETRY_COUNT_MAX` whois loop, with
`fuel = RETRY_COUNT_MAX - retry_count` iterations remaining: a success
breaks with the response, a `TimeoutError` sleeps `TIMEOUT_SLEEP` and
retries with `retry_count + 1`, any other caught error breaks with no
response. Returns the response (if any), the final `retry_count`, and the
emitted query/sleep events. -/
def whoisLoop (oracle : Nat → Except QueryError WhoisResponse) :
    Nat → Nat → Nat → Option WhoisResponse × Nat × List Effect
  | 0, _, rc => (none, rc, [])
  | fuel + 1, i, rc =>
    match oracle i with
    | .ok r => (some r, rc, [.query])
    | .error .timeoutError =>
      let (resp, rc', effs) := whoisLoop oracle fuel (i + 1) (rc + 1)
      (resp, rc', .query :: .sleep TIMEOUT_SLEEP :: effs)
    | .error _ => (none, rc, [.query])

/-- `RirSearcher.single_lookup`: classify, consult the cache, otherwise run
the whois retry loop; on terminal failure append the token to the
unresolved queue and flag `error`; on success assemble the record, and
unless the block name is excluded, write every derived sub-block to the
cache (persisting when `persist` is set). `.error` carries a Python
exception escaping the method. -/
def single_lookup (env : LookupEnv) (now : Int) (c : NetworkCache)
    (address : String) (persist : Bool) :
    Except PyExc (LookupOutcome × NetworkCache × List Effect) :=
  match _check_known_nets address with
  | (_, some resolved) =>
    .ok ({ known_net := true, cached := false, error := false,
           resolved_net := some resolved }, c, [])
  | (some ip, none) =>
    match c.in_cache ip with
    | some net =>
      match c.get_network address net with
      | .error e => .error e
      | .ok data =>
        .ok ({ known_net := false, cached := true, error := false,
               resolved_net := some data }, c, [])
    | none =>
      let (resp, retry_count, effs) := whoisLoop env.oracle RETRY_COUNT_MAX 0 0
      if retry_count = RETRY_COUNT_MAX ∨ resp.isNone then
        .ok ({ known_net := false, cached := false, error := true,
               resolved_net := none },
             { c with not_found := c.not_found ++ [address] }, effs)
      else
        match resp with
        | none => .error (.typeError "response is None")
        | some r =>
          let fields : Except PyExc (String × String × String × String) :=
            match r.nets with
            | n :: _ =>
              .ok (sanitize n.cidr, sanitize n.name, sanitize n.description,
                   sanitize n.country)
            | [] =>
              match r.asn_cidr with
              | some ac =>
                .ok (sanitize ac, "", sanitize r.asn_description,
                     sanitize r.asn_country_code)
              | none => .error (.keyError "asn_cidr")
          match fields with
          | .error e => .error e
          | .ok (net_cidr, net_name, net_description, net_country) =>
            let net_registry := sanitize r.asn_registry
            let host_and_mask := pySplit address '/'
            let fqdnStep : Except PyExc String :=
              if host_and_mask.length = 1 then
                .ok (env.rdns.getD "")
              else
                match pyInt (host_and_mask.getD 1 "") with
                | none => .error (.valueError "invalid literal for int")
                | some v => if v = 32 then .ok (env.rdns.getD "") else .ok ""
            match fqdnStep with
            | .error e => .error e
            | .ok net_rdns_fqdn =>
              let resolved : ResolvedNetwork :=
                { address := address, name := net_name, cidr := net_cidr,
                  country := net_country, registry := net_registry,
                  description := net_description, fqdn := net_rdns_fqdn }
              if net_name ∈ ReservedNetNames then
                .ok ({ known_net := false, cached := false, error := false,
                       resolved_net := some resolved }, c, effs)
              else
                let subnets : Except PyExc (List String) :=
                  match r.asn_cidr with
                  | some ac =>
                    if ac = "NA" then
                      match r.nets with
                      | n :: _ => .ok (pySplit (dropSpaces n.cidr) ',')
                      | [] => .error (.indexError "nets")
                    else .ok [ac]
                  | none =>
                    match r.nets with
                    | n :: _ => .ok (pySplit (dropSpaces n.cidr) ',')
                    | [] => .error (.indexError "nets")
                match subnets with
                | .error e => .error e
                | .ok subs =>
                  let c' := subs.foldl (fun acc net =>
                    acc.set net net_name net_description net_country
                      net_registry net_rdns_fqdn now) c
                  if persist then
                    let (c'', flushEffs) := c'.save_not_found
                    .ok ({ known_net := false, cached := false, error := false,
                           resolved_net := some resolved }, c'',
                         effs ++ [.saveCache c'.cache] ++ flushEffs)
                  else
                    .ok ({ known_net := false, cached := false, error := false,
                           resolved_net := some resolved }, c', effs)
  | (none, none) => .error (.typeError "NoneType is not iterable")

/-- The per-searcher state of `RirSearcher` that `search_list` touches. -/
structure RirSearcher where
  resolved_ip_list : List (Option ResolvedNetwork) := []
  raw_ip_list : List String := []
  cache : NetworkCache := {}
  start_cache_size : Nat := 0
deriving DecidableEq, Repr

/-- The `while len(ip_list) != 0` body of `RirSearcher.search_list`:
`envs i` is the external world for the i-th token. Tracks `cache_hits` and
`lookups`, appends failed tokens to the unresolved queue a second time, and
paces with a sleep every `SLEEP_INTERVAL` lookups and a cache save every
`CACHE_SAVE_INTERVAL` lookups. -/
def search_list_loop (envs : Nat → LookupEnv) (now : Int) :
    Nat → List String → RirSearcher → Nat → Nat →
    Except PyExc (RirSearcher × Nat × Nat × List Effect)
  | _, [], st, cache_hits, lookups => .ok (st, cache_hits, lookups, [])
  | idx, address :: rest, st, cache_hits, lookups =>
    match single_lookup (envs idx) now st.cache address false with
    | .error e => .error e
    | .ok (o, c', effs) =>
      let st := { st with cache := c' }
      if o.known_net then
        let st := { st with resolved_ip_list := st.resolved_ip_list ++ [o.resolved_net] }
        (search_list_loop envs now (idx + 1) rest st cache_hits lookups).map
          (fun r => (r.1, r.2.1, r.2.2.1, effs ++ r.2.2.2))
      else if o.cached then
        let st := { st with resolved_ip_list := st.resolved_ip_list ++ [o.resolved_net] }
        (search_list_loop envs now (idx + 1) rest st (cache_hits + 1) lookups).map
          (fun r => (r.1, r.2.1, r.2.2.1, effs ++ r.2.2.2))
      else
        let lookups := lookups + 1
        if o.error then
          let st := { st with cache :=
            { st.cache with not_found := st.cache.not_found ++ [address] } }
          (search_list_loop envs now (idx + 1) rest st cache_hits lookups).map
            (fun r => (r.1, r.2.1, r.2.2.1, effs ++ r.2.2.2))
        else
          let pacing :=
            (if lookups % SLEEP_INTERVAL = 0 then [Effect.sleep SLEEP_TIME] else []) ++
            (if lookups % CACHE_SAVE_INTERVAL = 0 then [Effect.saveCache st.cache.cache] else [])
          let st := { st with resolved_ip_list := st.resolved_ip_list ++ [o.resolved_net] }
          (search_list_loop envs now (idx + 1) rest st cache_hits lookups).map
            (fun r => (r.1, r.2.1, r.2.2.1, effs ++ pacing ++ r.2.2.2))

/-- `RirSearcher.search_list`: drive the loop over `raw_ip_list` (popped
front to back), then save the cache if it grew beyond the size recorded at
construction, and flush the unresolved queue. -/
def search_list (envs : Nat → LookupEnv) (now : Int) (st0 : RirSearcher) :
    Except PyExc (RirSearcher × List Effect) :=
  match search_list_loop envs now 0 st0.raw_ip_list st0 0 0 with
  | .error e => .error e
  | .ok (st, _, _, effs) =>
    let effs :=
      if st0.start_cache_size < st.cache.cache.length then
        effs ++ [.saveCache st.cache.cache]
      else effs
    let (c2, flushEffs) := st.cache.save_not_found
    .ok ({ st with cache := c2 }, effs ++ flushEffs)

/-- Decidable equality for `Except`, so that closed runs of the modelled
code can be checked by `decide`. -/
instance {ε α : Type} [DecidableEq ε] [DecidableEq α] : DecidableEq (Except ε α)
  | .error e, .error e' =>
    decidable_of_iff (e = e') ⟨by rintro rfl; rfl, by intro h; injection h⟩
  | .error _, .ok _ => isFalse (by intro h; cases h)
  | .ok _, .error _ => isFalse (by intro h; cases h)
  | .ok a, .ok a' =>
    decidable_of_iff (a = a') ⟨by rintro rfl; rfl, by intro h; injection h⟩

/-! ## Concrete scenario environments -/

/-- The registry response of the end-to-end scenario: one net
`{cidr: "203.0.113.0/24", name: "EXAMPLE-NET", country: "US",
description: "Example"}` under registry `"ARIN"`. -/
def c1Response : WhoisResponse :=
  { nets := [{ cidr := "203.0.113.0/24", name := "EXAMPLE-NET",
               description := "Example", country := "US" }],
    asn_cidr := none, asn_description := "", asn_country_code := "",
    asn_registry := "ARIN" }

/-- Scenario environment: every query attempt returns `c1Response`, reverse
DNS finds no entry. -/
def c1Env : LookupEnv := { oracle := fun _ => .ok c1Response, rdns := none }

/-- A generic successful response used to exercise the success path. -/
def okResp : WhoisResponse :=
  { nets := [{ cidr := "8.0.0.0/8", name := "LVLT-ORG-8-8",
               description := "Level 3", country := "US" }],
    asn_cidr := some "8.0.0.0/9", asn_description := "LEVEL3",
    asn_country_code := "US", asn_registry := "arin" }

/-- A successful response whose first net carries the excluded name
`"IANA-BLK"`. -/
def ianaResp : WhoisResponse :=
  { nets := [{ cidr := "0.0.0.0/0", name := "IANA-BLK",
               description := "The whole IPv4 address space", country := "EU" }],
    asn_cidr := some "8.0.0.0/9", asn_description := "LEVEL3",
    asn_country_code := "US", asn_registry := "arin" }

/-- Abbreviation for a cache entry with only a name and a creation stamp,
used in concrete load/save scenarios. -/
def mkEntry (nm : String) (cr : Option Int) : CacheEntry :=
  { name := nm, description := "", country := "", registry := "", fqdn := "",
    created := cr }

/-! ## Helper lemmas on the retry loop -/

/-- Recognizer for external query attempt events. -/
def isQuery : Effect → Bool
  | .query => true
  | _ => false

theorem whoisLoop_step_ok {oracle : Nat → Except QueryError WhoisResponse}
    {i rc : Nat} {r : WhoisResponse} (fuel : Nat) (h : oracle i = .ok r) :
    whoisLoop oracle (fuel + 1) i rc = (some r, rc, [.query]) := by
  simp [whoisLoop, h]

theorem whoisLoop_step_timeout {oracle : Nat → Except QueryError WhoisResponse}
    {i rc : Nat} (fuel : Nat) (h : oracle i = .error .timeoutError) :
    whoisLoop oracle (fuel + 1) i rc =
      ((whoisLoop oracle fuel (i + 1) (rc + 1)).1,
       (whoisLoop oracle fuel (i + 1) (rc + 1)).2.1,
       .query :: .sleep TIMEOUT_SLEEP :: (whoisLoop oracle fuel (i + 1) (rc + 1)).2.2) := by
  simp [whoisLoop, h]

theorem whoisLoop_step_err {oracle : Nat → Except QueryError WhoisResponse}
    {i rc : Nat} {qe : QueryError} (fuel : Nat) (h : oracle i = .error qe)
    (hne : qe ≠ .timeoutError) :
    whoisLoop oracle (fuel + 1) i rc = (none, rc, [.query]) := by
  cases qe with
  | timeoutError => exact absurd rfl hne
  | httpLookupError => simp [whoisLoop, h]
  | whoisLookupError => simp [whoisLoop, h]
  | asnParseError => simp [whoisLoop, h]

/-- The retry loop consumes at most `fuel` external query attempts. -/
theorem whoisLoop_query_count (oracle : Nat → Except QueryError WhoisResponse) :
    ∀ fuel i rc, ((whoisLoop oracle fuel i rc).2.2.countP isQuery) ≤ fuel := by
  intro fuel
  induction fuel with
  | zero => intro i rc; simp [whoisLoop]
  | succ n ih =>
    intro i rc
    cases h : oracle i with
    | ok r => rw [whoisLoop_step_ok n h]; simp [isQuery]
    | error qe =>
      cases qe with
      | timeoutError =>
        rw [whoisLoop_step_timeout n h]
        have := ih (i + 1) (rc + 1)
        simp [List.countP_cons, isQuery]
        omega
      | httpLookupError => rw [whoisLoop_step_err n h (by simp)]; simp [isQuery]
      | whoisLookupError => rw [whoisLoop_step_err n h (by simp)]; simp [isQuery]
      | asnParseError => rw [whoisLoop_step_err n h (by simp)]; simp [isQuery]

/-- Three straight timeouts exhaust the loop: `retry_count` reaches 3, no
response, each attempt followed by a 10-unit sleep. -/
theorem whoisLoop_three_timeouts {oracle : Nat → Except QueryError WhoisResponse}
    (h0 : oracle 0 = .error .timeoutError) (h1 : oracle 1 = .error .timeoutError)
    (h2 : oracle 2 = .error .timeoutError) :
    whoisLoop oracle RETRY_COUNT_MAX 0 0 =
      (none, RETRY_COUNT_MAX,
       [.query, .sleep TIMEOUT_SLEEP, .query, .sleep TIMEOUT_SLEEP,
        .query, .sleep TIMEOUT_SLEEP]) := by
  have e2 : whoisLoop oracle 1 2 2 = (none, 3, [.query, .sleep TIMEOUT_SLEEP]) := by
    rw [show (1 : Nat) = 0 + 1 from rfl, whoisLoop_step_timeout 0 h2]
    simp [whoisLoop]
  have e1 : whoisLoop oracle 2 1 1 =
      (none, 3, [.query, .sleep TIMEOUT_SLEEP, .query, .sleep TIMEOUT_SLEEP]) := by
    rw [show (2 : Nat) = 1 + 1 from rfl, whoisLoop_step_timeout 1 h1]
    simp [e2]
  rw [show RETRY_COUNT_MAX = 2 + 1 from rfl, whoisLoop_step_timeout 2 h0]
  simp [e1, RETRY_COUNT_MAX]

/-- A successful index rebuild certifies that every key parsed. -/
theorem buildIndex_ok_all_parse :
    ∀ (keys : List String) (acc idx : List (Net × String)),
      buildIndex acc keys = .ok idx → ∀ k ∈ keys, ip_network k ≠ none := by
  intro keys
  induction keys with
  | nil => intro acc idx _ k hk; cases hk
  | cons k0 rest ih =>
    intro acc idx h k hk
    simp only [buildIndex] at h
    cases hn : ip_network k0 with
    | none => rw [hn] at h; exact Except.noConfusion h
    | some n =>
      rw [hn] at h
      rw [List.mem_cons] at hk
      rcases hk with rfl | hk
      · simp [hn]
      · exact ih _ idx h k hk

/-- If every key parses, the index rebuild succeeds. -/
theorem buildIndex_ok_of_all_parse :
    ∀ (keys : List String) (acc : List (Net × String)),
      (∀ k ∈ keys, ip_network k ≠ none) →
      ∃ idx, buildIndex acc keys = .ok idx := by
  intro keys
  induction keys with
  | nil => intro acc _; exact ⟨acc, rfl⟩
  | cons k0 rest ih =>
    intro acc hall
    cases hn : ip_network k0 with
    | none => exact absurd hn (hall k0 (by simp))
    | some n =>
      obtain ⟨idx, hidx⟩ := ih (dictSet acc n k0) (fun k hk => hall k (by simp [hk]))
      refine ⟨idx, ?_⟩
      simp only [buildIndex]
      rw [hn]
      exact hidx

/-- Loopback addresses lie inside 127.0.0.0/8, which is one of the address
library's private networks. -/
theorem loopback_is_private {ip : Nat} (h : is_loopback ip = true) :
    is_private ip = true := by
  simp only [is_loopback, inNetwork, Nat.beq_eq_true_eq] at h
  simp only [is_private, privateNetsV4, List.any_cons, List.any_nil, inNetwork,
    Bool.or_eq_true, Nat.beq_eq_true_eq]
  norm_num at h ⊢
  omega

/-! ## Claims -/

/-- C1 (counterexample). For the token `"203.0.113.5"` with an empty cache
and the scenario registry oracle, `single_lookup` does not return the
`lookedUp` outcome with a new `"203.0.113.0/24"` cache entry: the call
reports `known_net = true` and leaves no entry under that key. -/
theorem c1_counterexample :
    (single_lookup c1Env 0 {} "203.0.113.5" true).toOption.map
        (fun res => (res.1.known_net, dictGet res.2.1.cache "203.0.113.0/24")) =
      some (true, none) := by
  decide

/-- C1 (amended). For the token `"203.0.113.5"` with an empty cache,
`single_lookup` never consults the registry oracle: `203.0.113.0/24` is in
the address library's private list, so the call returns the `wellKnown`
outcome with the record `{address: "203.0.113.5", description: "Private
(RFC 1918 or APIPA) range"}` (all other fields empty), the cache is
unchanged and no external effect is emitted. -/
theorem c1_amended :
    single_lookup c1Env 0 {} "203.0.113.5" true =
      .ok ({ known_net := true, cached := false, error := false,
             resolved_net := some { address := "203.0.113.5",
                                    description := PRIVATE_IP_DESCR } },
           {}, []) := by
  decide

/-- C2 (code bug). A batch containing the token `"8.8.8.8/x"` whose registry
query succeeds aborts `search_list` with the `ValueError` raised by
`int("x")`: the per-address failure is not recorded and the batch does not
continue, contradicting the stated failure semantics. -/
theorem c2_batch_aborts_on_bad_suffix :
    search_list (fun _ => { oracle := fun _ => .ok okResp, rdns := none }) 0
        { raw_ip_list := ["8.8.8.8/x"] } =
      .error (.valueError "invalid literal for int") := by
  decide

/-- C7. For a token that is neither well-known nor covered by the cache:
at most `RETRY_COUNT_MAX = 3` query attempts are ever made; three straight
timeouts sleep the 10-unit cooldown after each attempt and then fail; a
non-timeout query error fails immediately after one attempt; a timeout
followed by a non-timeout error fails after two attempts with one sleep.  In
every terminal failure the token is appended to the unresolved queue and the
`failed` outcome (`error = true`, no record) is returned without raising. -/
theorem c7_retry_policy (address : String) (ip : Nat) (c : NetworkCache) (now : Int)
    (hclass : _check_known_nets address = (some ip, none))
    (hcache : c.in_cache ip = none) :
    (∀ (env : LookupEnv) (out : LookupOutcome × NetworkCache × List Effect),
        single_lookup env now c address false = .ok out →
        out.2.2.countP isQuery ≤ RETRY_COUNT_MAX)
    ∧ (∀ env : LookupEnv,
        env.oracle 0 = .error .timeoutError → env.oracle 1 = .error .timeoutError →
        env.oracle 2 = .error .timeoutError →
        single_lookup env now c address false =
          .ok ({ known_net := false, cached := false, error := true, resolved_net := none },
               { c with not_found := c.not_found ++ [address] },
               [.query, .sleep TIMEOUT_SLEEP, .query, .sleep TIMEOUT_SLEEP,
                .query, .sleep TIMEOUT_SLEEP]))
    ∧ (∀ (env : LookupEnv) (qe : QueryError), qe ≠ .timeoutError →
        env.oracle 0 = .error qe →
        single_lookup env now c address false =
          .ok ({ known_net := false, cached := false, error := true, resolved_net := none },
               { c with not_found := c.not_found ++ [address] }, [.query]))
    ∧ (∀ (env : LookupEnv) (qe : QueryError), qe ≠ .timeoutError →
        env.oracle 0 = .error .timeoutError → env.oracle 1 = .error qe →
        single_lookup env now c address false =
          .ok ({ known_net := false, cached := false, error := true, resolved_net := none },
               { c with not_found := c.not_found ++ [address] },
               [.query, .sleep TIMEOUT_SLEEP, .query])) := by
  refine ⟨?_, ?_, ?_, ?_⟩
  · intro env out h
    rcases hww : whoisLoop env.oracle RETRY_COUNT_MAX 0 0 with ⟨resp, rc, effs⟩
    have hcount : effs.countP isQuery ≤ RETRY_COUNT_MAX := by
      have := whoisLoop_query_count env.oracle RETRY_COUNT_MAX 0 0
      rw [hww] at this
      exact this
    simp only [single_lookup, hclass, hcache, hww] at h
    repeat' split at h
    all_goals
      first
        | exact Except.noConfusion h
        | (injection h with h'; subst h'; exact hcount)
        | simp_all
  · intro env h0 h1 h2
    have hw := whoisLoop_three_timeouts h0 h1 h2
    simp only [single_lookup, hclass, hcache, hw]
    simp
  · intro env qe hne h0
    have hw : whoisLoop env.oracle RETRY_COUNT_MAX 0 0 = (none, 0, [.query]) := by
      rw [show RETRY_COUNT_MAX = 2 + 1 from rfl]
      exact whoisLoop_step_err 2 h0 hne
    simp only [single_lookup, hclass, hcache, hw]
    simp [RETRY_COUNT_MAX]
  · intro env qe hne h0 h1
    have hw : whoisLoop env.oracle RETRY_COUNT_MAX 0 0 =
        (none, 1, [.query, .sleep TIMEOUT_SLEEP, .query]) := by
      rw [show RETRY_COUNT_MAX = 2 + 1 from rfl, whoisLoop_step_timeout 2 h0]
      rw [show (2 : Nat) = 1 + 1 from rfl, whoisLoop_step_err 1 h1 hne]
    simp only [single_lookup, hclass, hcache, hw]
    simp [RETRY_COUNT_MAX]

/-- C7 witness: a concrete all-timeout run for `"8.8.8.8"` on the empty
cache. -/
theorem c7_witness :
    single_lookup { oracle := fun _ => .error .timeoutError, rdns := none } 0 {}
        "8.8.8.8" false =
      .ok ({ known_net := false, cached := false, error := true, resolved_net := none },
           { not_found := ["8.8.8.8"] },
           [.query, .sleep TIMEOUT_SLEEP, .query, .sleep TIMEOUT_SLEEP,
            .query, .sleep TIMEOUT_SLEEP]) := by
  have h := (c7_retry_policy "8.8.8.8" 134744072 {} 0 (by decide) (by decide)).2.1
    { oracle := fun _ => .error .timeoutError, rdns := none } rfl rfl rfl
  simpa using h

/-- C8. When the whois query succeeds at once and the first net's
(sanitized) name is the excluded `"IANA-BLK"`, `single_lookup` returns the
`lookedUp` outcome with the assembled record, but the returned cache state
is exactly the input cache — zero writes to the mapping or the index, no
save effects — whatever the `persist` flag is. -/
theorem c8_reserved_name_no_cache_write (address : String) (ip : Nat)
    (c : NetworkCache) (now : Int) (env : LookupEnv) (r : WhoisResponse)
    (n : WhoisNet) (rest : List WhoisNet) (persist : Bool)
    (hclass : _check_known_nets address = (some ip, none))
    (hcache : c.in_cache ip = none)
    (hok : env.oracle 0 = .ok r)
    (hnets : r.nets = n :: rest)
    (hname : sanitize n.name = "IANA-BLK")
    (hbare : (pySplit address '/').length = 1) :
    single_lookup env now c address persist =
      .ok ({ known_net := false, cached := false, error := false,
             resolved_net := some
               { address := address, name := sanitize n.name,
                 cidr := sanitize n.cidr, country := sanitize n.country,
                 registry := sanitize r.asn_registry,
                 description := sanitize n.description,
                 fqdn := env.rdns.getD "" } }, c, [.query]) := by
  have hw : whoisLoop env.oracle RETRY_COUNT_MAX 0 0 = (some r, 0, [.query]) := by
    rw [show RETRY_COUNT_MAX = 2 + 1 from rfl]
    exact whoisLoop_step_ok 2 hok
  simp only [single_lookup, hclass, hcache, hw, hnets, hbare]
  simp [RETRY_COUNT_MAX, hname, ReservedNetNames]

/-- C8 witness: token `"8.8.8.8"`, empty cache, a response naming
`"IANA-BLK"`, with `persist = true`. -/
theorem c8_witness :
    single_lookup { oracle := fun _ => .ok ianaResp, rdns := none } 0 {}
        "8.8.8.8" true =
      .ok ({ known_net := false, cached := false, error := false,
             resolved_net := some
               { address := "8.8.8.8", name := "IANA-BLK", cidr := "0.0.0.0/0",
                 country := "EU", registry := "arin",
                 description := "The whole IPv4 address space", fqdn := "" } },
           {}, [.query]) := by
  have h := c8_reserved_name_no_cache_write "8.8.8.8" 134744072 {} 0
    { oracle := fun _ => .ok ianaResp, rdns := none } ianaResp
    { cidr := "0.0.0.0/0", name := "IANA-BLK",
      description := "The whole IPv4 address space", country := "EU" } [] true
    (by decide) (by decide) rfl rfl (by decide) (by decide)
  simpa using h

/-- C3. Loading a persisted cache at time `now` keeps exactly the entries
with a `created` stamp satisfying `now < created + 14 days` (so an entry is
pruned iff `created` is missing or `created + 14 days ≤ now`); concretely,
an entry created 15 days ago is removed, one created 13 days ago survives,
and one without `created` is removed unconditionally. -/
theorem c3_load_prunes_expired (m : List (String × CacheEntry)) (now : Int) :
    (∀ c, NetworkCache.load (some m) now = .ok c →
      c.cache = m.filter (fun p =>
        match p.2.created with
        | none => false
        | some cr => decide (now < cr + CACHE_TIMEOUT_DAYS * secondsPerDay)))
    ∧ NetworkCache.load (some
        [("10.0.0.0/8", mkEntry "a" (some (now - 15 * secondsPerDay))),
         ("11.0.0.0/8", mkEntry "b" (some (now - 13 * secondsPerDay))),
         ("12.0.0.0/8", mkEntry "c" none)]) now =
      .ok { not_found := [],
            cache := [("11.0.0.0/8", mkEntry "b" (some (now - 13 * secondsPerDay)))],
            net_to_cidr := [({ addr := 11 * 2 ^ 24, plen := 8 }, "11.0.0.0/8")] } := by
  constructor
  · intro c h
    simp only [NetworkCache.load] at h
    split at h
    · injection h with h'
      subst h'
      apply List.filter_congr
      intro p _
      cases hc : p.2.created with
      | none => simp [isStale, hc]
      | some cr =>
        simp only [isStale, hc, decide_eq_true_eq, decide_eq_decide, cacheTTL,
          CACHE_TIMEOUT_DAYS, secondsPerDay]
        omega
    · exact Except.noConfusion h
  · have h15 : (now - 15 * secondsPerDay) + cacheTTL ≤ now := by
      simp only [cacheTTL, CACHE_TIMEOUT_DAYS, secondsPerDay]
      omega
    have h13 : ¬ ((now - 13 * secondsPerDay) + cacheTTL ≤ now) := by
      simp only [cacheTTL, CACHE_TIMEOUT_DAYS, secondsPerDay]
      omega
    simp only [NetworkCache.load, List.filter_cons, List.filter_nil, isStale, mkEntry,
      h15, h13, decide_True, decide_False, not_true, not_false_iff]
    simp [buildIndex]
    rfl

/-- C3 witness: a concrete load at `now = 1300000` of a single entry created
at time 0 (expired, since the TTL is 1209600 seconds) yields the filter of
the file by the freshness predicate, here the empty mapping. -/
theorem c3_witness :
    ({ not_found := [], cache := [], net_to_cidr := [] } : NetworkCache).cache =
      [("10.0.0.0/8", mkEntry "a" (some 0))].filter (fun p =>
        match p.2.created with
        | none => false
        | some cr => decide ((1300000 : Int) < cr + CACHE_TIMEOUT_DAYS * secondsPerDay)) :=
  (c3_load_prunes_expired [("10.0.0.0/8", mkEntry "a" (some 0))] 1300000).1 _ (by decide)

/-- C4 (counterexample). A well-formed persisted mapping with the fresh but
unparseable key `"foo"` makes load raise `ValueError` during the index
rebuild — load is not total on well-formed JSON cache files. -/
theorem c4_counterexample :
    NetworkCache.load (some [("foo", mkEntry "x" (some 0))]) 0 =
      .error (.valueError "foo") := by
  decide

/-- C4 (amended). During load, the index rebuild parses every surviving key
with no error handling: if any key that survives expiry pruning fails to
parse as a network, load raises (a `ValueError` escapes) instead of
skipping the key.  The silent skip the claim describes exists only at write
time: `set` with an unparseable key keeps the mapping entry and leaves the
containment index unchanged. -/
theorem c4_load_raises_on_unparsed_key (m : List (String × CacheEntry))
    (now : Int) (k : String)
    (hk : k ∈ (m.filter (fun p => ¬ isStale now p.2)).map (·.1))
    (hbad : ip_network k = none) :
    (∃ e, NetworkCache.load (some m) now = .error e)
    ∧ ∀ (c : NetworkCache) (nm d co r f : String),
        (c.set k nm d co r f now).cache =
            dictSet c.cache k { name := nm, description := d, country := co,
                                registry := r, fqdn := f, created := some now }
          ∧ (c.set k nm d co r f now).net_to_cidr = c.net_to_cidr := by
  constructor
  · cases hbi : buildIndex [] ((m.filter (fun p => ¬ isStale now p.2)).map (·.1)) with
    | ok idx =>
      exact absurd hbad (buildIndex_ok_all_parse _ [] idx hbi k hk)
    | error e =>
      refine ⟨e, ?_⟩
      simp only [NetworkCache.load]
      rw [hbi]
  · intro c nm d co r f
    constructor
    · simp [NetworkCache.set, hbad]
    · simp [NetworkCache.set, hbad]

/-- C4 witness: the amended behaviour at the concrete key `"foo"`. -/
theorem c4_witness :
    (∃ e, NetworkCache.load (some [("foo", mkEntry "x" (some 0))]) 0 = .error e)
    ∧ ∀ (c : NetworkCache) (nm d co r f : String),
        (c.set "foo" nm d co r f 0).cache =
            dictSet c.cache "foo" { name := nm, description := d, country := co,
                                    registry := r, fqdn := f, created := some 0 }
          ∧ (c.set "foo" nm d co r f 0).net_to_cidr = c.net_to_cidr :=
  c4_load_raises_on_unparsed_key [("foo", mkEntry "x" (some 0))] 0 "foo"
    (by decide) (by decide)

/-- C5 (counterexample). Classifying the loopback token `"127.0.0.1"`
returns the description `"Private (RFC 1918 or APIPA) range"`, not
`"Loopback range"`. -/
theorem c5_counterexample :
    ((_check_known_nets "127.0.0.1").2.map (fun r => r.description) =
        some PRIVATE_IP_DESCR)
    ∧ PRIVATE_IP_DESCR ≠ LOOPBACK_IP_DESCR := by
  decide

/-- C5 (amended). For every token whose host part parses to a loopback
address, classification returns a well-known record with no host address —
but its description is `"Private (RFC 1918 or APIPA) range"`, because the
`is_private` check precedes the `is_loopback` check and 127.0.0.0/8 is in
the library's private list — and `single_lookup` returns the `wellKnown`
outcome with the cache untouched and no external effect. -/
theorem c5_loopback_classified_private (address : String) (ip : Nat)
    (hhost : ip_address ((pySplit address '/').headD "") = some ip)
    (hloop : is_loopback ip = true) :
    _check_known_nets address =
      (none, some { address := address, description := PRIVATE_IP_DESCR })
    ∧ ∀ (env : LookupEnv) (now : Int) (c : NetworkCache) (persist : Bool),
        single_lookup env now c address persist =
          .ok ({ known_net := true, cached := false, error := false,
                 resolved_net := some { address := address,
                                        description := PRIVATE_IP_DESCR } },
               c, []) := by
  have hpriv : is_private ip = true := loopback_is_private hloop
  have hclass : _check_known_nets address =
      (none, some { address := address, description := PRIVATE_IP_DESCR }) := by
    simp only [_check_known_nets]
    rw [hhost]
    simp [hpriv]
  refine ⟨hclass, ?_⟩
  intro env now c persist
  simp only [single_lookup, hclass]

/-- C5 witness: the amended behaviour at `"127.0.0.1"`. -/
theorem c5_witness :
    _check_known_nets "127.0.0.1" =
      (none, some { address := "127.0.0.1", description := PRIVATE_IP_DESCR })
    ∧ single_lookup c1Env 0 {} "127.0.0.1" false =
        .ok ({ known_net := true, cached := false, error := false,
               resolved_net := some { address := "127.0.0.1",
                                      description := PRIVATE_IP_DESCR } },
             {}, []) :=
  ⟨(c5_loopback_classified_private "127.0.0.1" 2130706433 (by decide) (by decide)).1,
   (c5_loopback_classified_private "127.0.0.1" 2130706433 (by decide) (by decide)).2
     c1Env 0 {} false⟩

/-- C6. After `set("10.0.0.0/8", ...)` on the empty cache,
`in_cache(10.1.2.3)` returns `"10.0.0.0/8"`; for an address contained in no
indexed network, `in_cache` returns `none` (and, the source method being
read-only, it is embedded as a pure function, so it cannot mutate the
mapping, the index or the unresolved queue); and with both `10.0.0.0/8` and
the more specific `10.1.0.0/16` indexed, the first match in insertion order
`"10.0.0.0/8"` is returned, not the most specific one. -/
theorem c6_contains_first_match (ca : NetworkCache) (a : Nat)
    (hnone : ∀ p ∈ ca.net_to_cidr, inNetwork a p.1 = false) :
    ca.in_cache a = none
    ∧ (NetworkCache.set {} "10.0.0.0/8" "N" "D" "CO" "R" "F" 0).in_cache
        ((ip_address "10.1.2.3").getD 0) = some "10.0.0.0/8"
    ∧ (NetworkCache.set (NetworkCache.set {} "10.0.0.0/8" "N" "D" "CO" "R" "F" 0)
        "10.1.0.0/16" "N2" "D2" "CO2" "R2" "F2" 0).in_cache
        ((ip_address "10.1.2.3").getD 0) = some "10.0.0.0/8" := by
  refine ⟨?_, by decide, by decide⟩
  have hfind : ca.net_to_cidr.find? (fun p => inNetwork a p.1) = none := by
    rw [List.find?_eq_none]
    intro x hx
    simp [hnone x hx]
  simp [NetworkCache.in_cache, hfind]

/-- C6 witness: the empty cache contains no address, and the two concrete
containment scenarios. -/
theorem c6_witness :
    ({} : NetworkCache).in_cache 0 = none
    ∧ (NetworkCache.set {} "10.0.0.0/8" "N" "D" "CO" "R" "F" 0).in_cache
        ((ip_address "10.1.2.3").getD 0) = some "10.0.0.0/8"
    ∧ (NetworkCache.set (NetworkCache.set {} "10.0.0.0/8" "N" "D" "CO" "R" "F" 0)
        "10.1.0.0/16" "N2" "D2" "CO2" "R2" "F2" 0).in_cache
        ((ip_address "10.1.2.3").getD 0) = some "10.0.0.0/8" :=
  c6_contains_first_match {} 0 (by simp [NetworkCache.net_to_cidr])

/-- C9 (counterexample). `set` accepts the unparseable key `"foo"` into the
mapping, `save_cache` writes it, and reloading the saved mapping raises
`ValueError` instead of yielding the set of non-expired entries — the
round-trip claim fails for such cache states. -/
theorem c9_counterexample :
    NetworkCache.load
        (some (NetworkCache.set {} "foo" "N" "D" "CO" "R" "F" 0).save_cache) 0 =
      .error (.valueError "foo") := by
  decide

/-- C9 (amended). For every cache state whose keys all parse as networks,
`save_cache` writes every entry regardless of freshness, and loading the
saved mapping at time `now` succeeds and yields exactly the entries that
are not expired at `now`. -/
theorem c9_save_load_roundtrip (c : NetworkCache) (now : Int)
    (hkeys : ∀ p ∈ c.cache, ip_network p.1 ≠ none) :
    c.save_cache = c.cache
    ∧ ∃ c', NetworkCache.load (some c.save_cache) now = .ok c'
        ∧ c'.cache = c.cache.filter (fun p => ¬ isStale now p.2) := by
  refine ⟨rfl, ?_⟩
  have hall : ∀ k ∈ (c.cache.filter (fun p => ¬ isStale now p.2)).map (·.1),
      ip_network k ≠ none := by
    intro k hk
    simp only [List.mem_map] at hk
    obtain ⟨p, hp, rfl⟩ := hk
    exact hkeys p (List.mem_of_mem_filter hp)
  obtain ⟨idx, hidx⟩ := buildIndex_ok_of_all_parse _ [] hall
  refine ⟨{ not_found := [], cache := c.cache.filter (fun p => ¬ isStale now p.2),
            net_to_cidr := idx }, ?_, rfl⟩
  simp only [NetworkCache.save_cache, NetworkCache.load]
  rw [hidx]

/-- C9 witness: a concrete two-entry cache (one fresh, one expired at
`now = 1300000`) whose keys parse. -/
theorem c9_witness :
    ({ not_found := [],
       cache := [("10.0.0.0/8", mkEntry "a" (some 0)),
                 ("11.0.0.0/8", mkEntry "b" (some 200000))],
       net_to_cidr := [] } : NetworkCache).save_cache =
        ({ not_found := [],
           cache := [("10.0.0.0/8", mkEntry "a" (some 0)),
                     ("11.0.0.0/8", mkEntry "b" (some 200000))],
           net_to_cidr := [] } : NetworkCache).cache
    ∧ ∃ c', NetworkCache.load
          (some ({ not_found := [],
                   cache := [("10.0.0.0/8", mkEntry "a" (some 0)),
                             ("11.0.0.0/8", mkEntry "b" (some 200000))],
                   net_to_cidr := [] } : NetworkCache).save_cache) 1300000 = .ok c'
        ∧ c'.cache = ({ not_found := [],
                        cache := [("10.0.0.0/8", mkEntry "a" (some 0)),
                                  ("11.0.0.0/8", mkEntry "b" (some 200000))],
                        net_to_cidr := [] } : NetworkCache).cache.filter
            (fun p => ¬ isStale 1300000 p.2) :=
  c9_save_load_roundtrip _ 1300000 (by decide)

/-- C10. A token whose lookup fails during the list batch is appended to the
unresolved queue twice: once inside `single_lookup` and once more by the
`search_list` loop on seeing the error flag.  Consequently a single-token
batch that fails ends with one flush of the unresolved log recording the
token two times. -/
theorem c10_failed_token_double_append (envs : Nat → LookupEnv) (now : Int)
    (st : RirSearcher) (address : String) (ip : Nat)
    (hclass : _check_known_nets address = (some ip, none))
    (hcache : st.cache.in_cache ip = none)
    (hfail : ∀ i, (envs i).oracle 0 = .error .whoisLookupError) :
    (∀ (idx : Nat) (rest : List String) (cache_hits lookups : Nat),
        search_list_loop envs now idx (address :: rest) st cache_hits lookups =
          (search_list_loop envs now (idx + 1) rest
              { st with cache := { st.cache with
                  not_found := st.cache.not_found ++ [address, address] } }
              cache_hits (lookups + 1)).map
            (fun r => (r.1, r.2.1, r.2.2.1, Effect.query :: r.2.2.2)))
    ∧ (st.cache.not_found = [] → st.raw_ip_list = [address] →
        st.cache.cache.length ≤ st.start_cache_size →
        search_list envs now st =
          .ok ({ st with cache := { st.cache with not_found := [] } },
               [.query, .flushNotFound [address, address]])) := by
  have hsingle : ∀ i, single_lookup (envs i) now st.cache address false =
      .ok ({ known_net := false, cached := false, error := true, resolved_net := none },
           { st.cache with not_found := st.cache.not_found ++ [address] }, [.query]) := by
    intro i
    have hw : whoisLoop (envs i).oracle RETRY_COUNT_MAX 0 0 = (none, 0, [.query]) := by
      rw [show RETRY_COUNT_MAX = 2 + 1 from rfl]
      exact whoisLoop_step_err 2 (hfail i) (by simp)
    simp only [single_lookup, hclass, hcache, hw]
    simp [RETRY_COUNT_MAX]
  have hstep : ∀ (idx : Nat) (rest : List String) (cache_hits lookups : Nat),
      search_list_loop envs now idx (address :: rest) st cache_hits lookups =
        (search_list_loop envs now (idx + 1) rest
            { st with cache := { st.cache with
                not_found := st.cache.not_found ++ [address, address] } }
            cache_hits (lookups + 1)).map
          (fun r => (r.1, r.2.1, r.2.2.1, Effect.query :: r.2.2.2)) := by
    intro idx rest cache_hits lookups
    simp only [search_list_loop, hsingle idx]
    simp [List.append_assoc]
  refine ⟨hstep, ?_⟩
  intro hnf hraw hsz
  simp only [search_list, hraw, hstep 0 [] 0 0]
  simp only [search_list_loop, Except.map]
  have hns : ¬ st.start_cache_size < st.cache.cache.length := Nat.not_lt.mpr hsz
  simp [NetworkCache.save_not_found, hnf, hns]

/-- C10 witness: the one-token failing batch for `"8.8.8.8"` flushes the
token twice. -/
theorem c10_witness :
    search_list (fun _ => { oracle := fun _ => .error .whoisLookupError, rdns := none })
        0 { raw_ip_list := ["8.8.8.8"] } =
      .ok ({ raw_ip_list := ["8.8.8.8"] },
           [.query, .flushNotFound ["8.8.8.8", "8.8.8.8"]]) := by
  have h := (c10_failed_token_double_append
      (fun _ => { oracle := fun _ => .error .whoisLookupError, rdns := none }) 0
      { raw_ip_list := ["8.8.8.8"] } "8.8.8.8" 134744072
      (by decide) (by decide) (fun _ => rfl)).2 rfl rfl (by decide)
  simpa using h

end IpLookup
